import Mathlib

/-!
Shallow embedding of the ChickMash price-forecast advisor
(`myproject/myapp/chickmash.py`) and its request layer
(`myproject/myapp/views.py`).

Conventions of the embedding:
* Python floats carrying prices are modelled as rationals (`Rat`); `round(x, 2)`
  is `round2`.
* The loaded Prophet model is an explicit parameter: `make_future_dataframe`
  followed by `predict` yields a forecast table that depends only on the number
  of requested periods, abstracted as `Model.forecastTable`.
* A Python function that can raise is embedded as `Except String`, the string
  being `str(e)` of the raised exception; the `try/except` re-wrapping of
  messages is reproduced verbatim.
* Python string slicing `s[:n]` / `s[-n:]` is character-level, embedded as
  `strTake` / `strTakeRight` acting on the character data of a `String`.
-/

namespace ChickMash

/-- `datetime.strftime('%B')`: full English month name for months 1..12. -/
def monthName : Nat → String
  | 1 => "January"
  | 2 => "February"
  | 3 => "March"
  | 4 => "April"
  | 5 => "May"
  | 6 => "June"
  | 7 => "July"
  | 8 => "August"
  | 9 => "September"
  | 10 => "October"
  | 11 => "November"
  | 12 => "December"
  | _ => ""

/-- The dictionary returned by `_predict_month`: the historical branch leaves
`lower_bound`/`upper_bound` absent and sets `note`; the forecast branch sets
the bounds and leaves `note` absent. -/
structure MonthForecast where
  month : String
  year : Int
  predicted_price : Rat
  lower_bound : Option Rat := none
  upper_bound : Option Rat := none
  note : Option String := none
deriving DecidableEq, Repr

/-- One row of the forecast dataframe returned by `model.predict`: the period
`ds` (at month granularity) plus `yhat`, `yhat_lower`, `yhat_upper`. -/
structure ForecastRow where
  ds_year : Int
  ds_month : Nat
  yhat : Rat
  yhat_lower : Rat
  yhat_upper : Rat
deriving DecidableEq, Repr

/-- The loaded Prophet model. `make_future_dataframe(periods, freq='M')`
followed by `self.model.predict(future)` produces a forecast table that
depends only on the number of periods requested. -/
structure Model where
  forecastTable : Nat → List ForecastRow

/-- Python's `round(x, 2)`. -/
def round2 (q : Rat) : Rat := ((round (q * 100) : Int) : Rat) / 100

/-- `(target_date.year - last_training_date.year) * 12 +
(target_date.month - last_training_date.month)` with
`last_training_date = 2024-12-01` (chickmash.py line 44). -/
def monthsAhead (year : Int) (month : Nat) : Int :=
  (year - 2024) * 12 + ((month : Int) - 12)

/-- `_predict_month(self, year, month)`.  `datetime(year, month, 1)` raises
`ValueError` outside `1 <= year <= 9999` or `1 <= month <= 12`; the raised
error is caught and re-wrapped like every other failure of the body. -/
def predictMonth (model : Model) (year : Int) (month : Nat) :
    Except String MonthForecast :=
  if year < 1 ∨ 9999 < year ∨ month < 1 ∨ 12 < month then
    Except.error "Month prediction failed: invalid date"
  else
    let months_ahead := monthsAhead year month
    if months_ahead ≤ 0 then
      Except.ok { month := monthName month, year := year, predicted_price := 0,
                  note := some "Historical data" }
    else
      let forecast := model.forecastTable months_ahead.toNat
      let target_prediction :=
        forecast.filter (fun r => decide (r.ds_year = year ∧ r.ds_month = month))
      match target_prediction with
      | [] =>
          Except.error ("Month prediction failed: No prediction found for "
            ++ monthName month ++ " " ++ toString year)
      | prediction_data :: _ =>
          Except.ok { month := monthName month, year := year,
                      predicted_price := round2 prediction_data.yhat,
                      lower_bound := some (round2 prediction_data.yhat_lower),
                      upper_bound := some (round2 prediction_data.yhat_upper) }

/-- The loop body of `predict_year`: call `_predict_month` for each month of
the list in order, appending results; the first raised exception aborts. -/
def predictMonths (model : Model) (year : Int) :
    List Nat → Except String (List MonthForecast)
  | [] => Except.ok []
  | m :: ms =>
    match predictMonth model year m with
    | Except.error e => Except.error e
    | Except.ok p =>
      match predictMonths model year ms with
      | Except.error e => Except.error e
      | Except.ok rest => Except.ok (p :: rest)

/-- `predict_year(self, year)`: months `range(1, 13)`, failures re-wrapped as
`"Year prediction failed: ..."`. -/
def predict_year (model : Model) (year : Int) :
    Except String (List MonthForecast) :=
  match predictMonths model year (List.range' 1 12) with
  | Except.error e => Except.error ("Year prediction failed: " ++ e)
  | Except.ok predictions => Except.ok predictions

/-- An entry of `best_buy_months` / `best_sell_months`. -/
structure Recommendation where
  month : String
  price : Rat
  reason : String
deriving DecidableEq, Repr

/-- The `profit_analysis` dictionary. -/
structure ProfitAnalysis where
  average_buy_price : Rat
  average_sell_price : Rat
  potential_profit_margin : Rat
  annual_low : Rat
  annual_high : Rat
deriving DecidableEq, Repr

/-- The dictionary returned by `get_best_months`. -/
structure BestMonths where
  year : Int
  best_buy_months : List Recommendation
  best_sell_months : List Recommendation
  profit_analysis : ProfitAnalysis
deriving DecidableEq, Repr

/-- `_get_buy_reason(self, month)`. -/
def get_buy_reason (month : String) : String :=
  match month with
  | "January" => "Post-holiday prices usually drop"
  | "February" => "Short month, stable low prices"
  | "March" => "Before peak season price rise"
  | "April" => "Good pre-rainy season prices"
  | "May" => "Planting season, lower demand"
  | "June" => "Mid-year price stability"
  | "July" => "Strategic buying opportunity"
  | "August" => "Pre-harvest favorable prices"
  | "September" => "Harvest begins, supply increases"
  | "October" => "Typically the lowest prices"
  | "November" => "Before holiday price surge"
  | "December" => "Avoid - holiday premium prices"
  | _ => "Good buying conditions"

/-- `_get_sell_reason(self, month)`. -/
def get_sell_reason (month : String) : String :=
  match month with
  | "January" => "New year demand recovery"
  | "February" => "Valentine season demand"
  | "March" => "Peak season highest prices"
  | "April" => "Easter holiday demand"
  | "May" => "Pre-planting demand spike"
  | "June" => "Mid-year budget spending"
  | "July" => "Stable high demand period"
  | "August" => "Back-to-school demand"
  | "September" => "Post-harvest demand rise"
  | "October" => "Pre-holiday stocking begins"
  | "November" => "Holiday preparation peak"
  | "December" => "Highest holiday season prices"
  | _ => "High demand period"

/-- The comparison used by `sorted(predictions, key=lambda x: x['predicted_price'])`. -/
def priceLE (a b : MonthForecast) : Bool :=
  decide (a.predicted_price ≤ b.predicted_price)

/-- Python's `sorted` is a stable ascending sort; `List.mergeSort` is the
stable ascending sort of the Lean library. -/
def sortByPrice (predictions : List MonthForecast) : List MonthForecast :=
  predictions.mergeSort priceLE

/-- The body of `get_best_months` after `predict_year` has produced
`predictions` (chickmash.py lines 79-113).  When `avg_buy` is `0.0`, the
Python expression `((avg_sell - avg_buy) / avg_buy) * 100` raises
`ZeroDivisionError('float division by zero')`. -/
def bestMonthsCore (year : Int) (predictions : List MonthForecast) :
    Except String BestMonths :=
  let sorted_predictions := sortByPrice predictions
  let best_buy := sorted_predictions.take 3
  let best_sell := sorted_predictions.drop (sorted_predictions.length - 3)
  let avg_buy := (best_buy.map (fun m => m.predicted_price)).sum / 3
  let avg_sell := (best_sell.map (fun m => m.predicted_price)).sum / 3
  if avg_buy = 0 then Except.error "float division by zero"
  else
    let profit_margin := ((avg_sell - avg_buy) / avg_buy) * 100
    Except.ok
      { year := year
        best_buy_months := best_buy.map (fun m =>
          { month := m.month, price := m.predicted_price,
            reason := get_buy_reason m.month })
        best_sell_months := best_sell.map (fun m =>
          { month := m.month, price := m.predicted_price,
            reason := get_sell_reason m.month })
        profit_analysis :=
          { average_buy_price := round2 avg_buy
            average_sell_price := round2 avg_sell
            potential_profit_margin := round2 profit_margin
            annual_low := ((best_buy.map (fun m => m.predicted_price)).headD 0)
            annual_high := ((best_sell.map (fun m => m.predicted_price)).getLastD 0) } }

/-- `get_best_months(self, year)`: every exception of the body (including the
already-wrapped `predict_year` failure and the `ZeroDivisionError`) is
re-wrapped as `"Best months analysis failed: ..."`. -/
def get_best_months (model : Model) (year : Int) : Except String BestMonths :=
  match predict_year model year with
  | Except.error e => Except.error ("Best months analysis failed: " ++ e)
  | Except.ok predictions =>
    match bestMonthsCore year predictions with
    | Except.error e => Except.error ("Best months analysis failed: " ++ e)
    | Except.ok r => Except.ok r

/-- The loop of `get_multi_year_predictions` over an explicit list of years,
inserting `year -> predictions` in iteration order. -/
def predictYears (model : Model) :
    List Int → Except String (List (Int × List MonthForecast))
  | [] => Except.ok []
  | y :: ys =>
    match predict_year model y with
    | Except.error e => Except.error e
    | Except.ok predictions =>
      match predictYears model ys with
      | Except.error e => Except.error e
      | Except.ok rest => Except.ok ((y, predictions) :: rest)

/-- `get_multi_year_predictions(self, years=3)`: iterates
`range(current_year, current_year + years)` where `current_year` is
`datetime.now().year`, passed here as an explicit parameter. -/
def get_multi_year_predictions (model : Model) (current_year : Int)
    (years : Nat) : Except String (List (Int × List MonthForecast)) :=
  match predictYears model
      ((List.range years).map (fun (k : Nat) => current_year + (k : Int))) with
  | Except.error e => Except.error ("Multi-year prediction failed: " ++ e)
  | Except.ok all_predictions => Except.ok all_predictions

/-- Python character-level slice `s[:n]`. -/
def strTake (s : String) (n : Nat) : String := ⟨s.data.take n⟩

/-- Python character-level slice `s[-n:]`. -/
def strTakeRight (s : String) (n : Nat) : String :=
  ⟨s.data.drop (s.data.length - n)⟩

/-- The `(label, price)` series assembled by `generate_price_chart`
(chickmash.py lines 139-146): for each stored year, for each month entry,
`label = f"{month_data['month'][:3]} {str(year)[-2:]}"`. -/
def chartSeries (predictions : List (Int × List MonthForecast)) :
    List (String × Rat) :=
  predictions.flatMap (fun p =>
    p.2.map (fun month_data =>
      (strTake month_data.month 3 ++ " " ++ strTakeRight (toString p.1) 2,
       month_data.predicted_price)))

/-- `generate_price_chart(self, years=3)` restricted to the data it plots;
the rendering and file output are I/O and not modelled. -/
def generate_price_chart (model : Model) (current_year : Int) (years : Nat) :
    Except String (List (String × Rat)) :=
  match get_multi_year_predictions model current_year years with
  | Except.error e => Except.error ("Chart generation failed: " ++ e)
  | Except.ok predictions => Except.ok (chartSeries predictions)

end ChickMash

namespace Views

open ChickMash

/-- A `JsonResponse` as far as the observable envelope goes: success flag with
message, or error string with HTTP status. -/
inductive ViewResponse where
  | ok (message : String) : ViewResponse
  | err (error : String) (status : Nat) : ViewResponse
deriving DecidableEq, Repr

/-- `best_buy_months(request)` (views.py lines 9-36); `current_year` is
`datetime.now().year`, `year` the parsed query parameter. -/
def best_buy_months (model : Model) (current_year year : Int) : ViewResponse :=
  if year < current_year then ViewResponse.err "Cannot analyze past years" 400
  else
    match get_best_months model year with
    | Except.ok _ =>
        ViewResponse.ok ("Best months to buy chicken mash in " ++ toString year)
    | Except.error e => ViewResponse.err e 500

/-- `best_sell_months(request)` (views.py lines 38-65). -/
def best_sell_months (model : Model) (current_year year : Int) : ViewResponse :=
  if year < current_year then ViewResponse.err "Cannot analyze past years" 400
  else
    match get_best_months model year with
    | Except.ok _ =>
        ViewResponse.ok ("Best months to sell chicken mash in " ++ toString year)
    | Except.error e => ViewResponse.err e 500

/-- `complete_analysis(request)` (views.py lines 108-140): no year validation;
calls `get_best_months`, then `get_multi_year_predictions`, then
`generate_price_chart`, converting any raised exception into a 500 response. -/
def complete_analysis (model : Model) (current_year year : Int)
    (chart_years : Nat) : ViewResponse :=
  match get_best_months model year with
  | Except.error e => ViewResponse.err e 500
  | Except.ok _ =>
    match get_multi_year_predictions model current_year chart_years with
    | Except.error e => ViewResponse.err e 500
    | Except.ok _ =>
      match generate_price_chart model current_year chart_years with
      | Except.error e => ViewResponse.err e 500
      | Except.ok _ =>
          ViewResponse.ok ("Complete chicken mash analysis for " ++ toString year)

end Views

deriving instance DecidableEq for Except

unseal List.merge List.mergeSort Nat.gcd Rat.add Rat.mul Rat.inv Rat.sub

namespace ChickMash

/-- A model whose forecast table is empty at every horizon; any forecast-path
lookup against it fails, while historical short-circuits never consult it. -/
def emptyModel : Model := ⟨fun _ => []⟩

/-- The dictionary produced by the historical branch of `_predict_month`. -/
def histMonth (y : Int) (m : Nat) : MonthForecast :=
  { month := monthName m, year := y, predicted_price := 0,
    note := some "Historical data" }

/-- The year forecast of a fully historical year: twelve zero-price entries. -/
def histYear (y : Int) : List MonthForecast :=
  (List.range' 1 12).map (histMonth y)

/-- `_predict_month` at target 2025-03 takes the forecast branch: it builds a
3-period future, predicts, and looks up the row for March 2025. -/
theorem predictMonth_2025_3 (model : Model) :
    predictMonth model 2025 3 =
      (match (model.forecastTable 3).filter
          (fun row => decide (row.ds_year = 2025 ∧ row.ds_month = 3)) with
        | [] =>
            Except.error ("Month prediction failed: No prediction found for "
              ++ monthName 3 ++ " " ++ toString (2025 : Int))
        | prediction_data :: _ =>
            Except.ok { month := monthName 3, year := 2025,
                        predicted_price := round2 prediction_data.yhat,
                        lower_bound := some (round2 prediction_data.yhat_lower),
                        upper_bound := some (round2 prediction_data.yhat_upper) }) :=
  rfl

/-- C2: for every valid target year and month the resolved horizon is
`(targetYear - 2024)*12 + (targetMonth - 12)` (cutoff 2024-12-01); target
2025-03 resolves to 3 and takes the forecast path (its result never carries
the historical note), while target 2024-06 resolves to -6 and takes the
historical path with price 0. -/
theorem horizon_resolution :
    (∀ (y : Int) (m : Nat), monthsAhead y m = (y - 2024) * 12 + ((m : Int) - 12))
    ∧ monthsAhead 2025 3 = 3
    ∧ monthsAhead 2024 6 = -6
    ∧ (∀ (model : Model) (r : MonthForecast),
        predictMonth model 2025 3 = Except.ok r → r.note = none)
    ∧ (∀ model : Model, predictMonth model 2024 6 = Except.ok (histMonth 2024 6)) := by
  refine ⟨fun y m => rfl, by decide, by decide, ?_, fun model => rfl⟩
  intro model r h
  rw [predictMonth_2025_3] at h
  cases htp : (model.forecastTable 3).filter
      (fun row => decide (row.ds_year = 2025 ∧ row.ds_month = 3)) with
  | nil => rw [htp] at h; cases h
  | cons row rest => rw [htp] at h; cases h; rfl

/-- Witness for C2 at concrete inputs. -/
theorem horizon_resolution_witness :
    monthsAhead 2025 3 = 3 ∧ monthsAhead 2024 6 = -6
    ∧ predictMonth emptyModel 2024 6 = Except.ok (histMonth 2024 6) :=
  ⟨horizon_resolution.2.1, horizon_resolution.2.2.1,
   horizon_resolution.2.2.2.2 emptyModel⟩

/-- C3: whenever the resolved horizon is at most 0 (for a date `datetime`
accepts), `_predict_month` returns price 0 with note "Historical data" and no
bounds, independently of the model (no model call is made). -/
theorem historical_month_short_circuit (model : Model) (y : Int) (m : Nat)
    (hy1 : 1 ≤ y) (hy2 : y ≤ 9999) (hm1 : 1 ≤ m) (hm2 : m ≤ 12)
    (h : monthsAhead y m ≤ 0) :
    predictMonth model y m = Except.ok
      { month := monthName m, year := y, predicted_price := 0,
        lower_bound := none, upper_bound := none,
        note := some "Historical data" } := by
  simp only [predictMonth]
  rw [if_neg (by omega), if_pos h]

/-- Witness for C3 at concrete inputs. -/
theorem historical_month_short_circuit_witness :
    predictMonth emptyModel 2020 5 = Except.ok
      { month := "May", year := 2020, predicted_price := 0,
        lower_bound := none, upper_bound := none,
        note := some "Historical data" } :=
  historical_month_short_circuit emptyModel 2020 5 (by decide) (by decide)
    (by decide) (by decide) (by decide)

/-- C1 (bug evidence): for the fully historical year 2024 all twelve selected
prices are 0, so the average buy price is 0 and `get_best_months` raises a
wrapped `ZeroDivisionError` instead of reporting a sentinel margin. -/
theorem zero_avg_buy_raises :
    get_best_months emptyModel 2024 =
      Except.error "Best months analysis failed: float division by zero" := by
  decide

/-- Every successful `_predict_month` result is stamped with
`target_date.strftime('%B')` and the requested year, in both branches. -/
theorem predictMonth_ok_stamp {model : Model} {y : Int} {m : Nat}
    {f : MonthForecast} (h : predictMonth model y m = Except.ok f) :
    f.month = monthName m ∧ f.year = y := by
  simp only [predictMonth] at h
  split at h
  · cases h
  · split at h
    · cases h; exact ⟨rfl, rfl⟩
    · split at h
      · cases h
      · cases h; exact ⟨rfl, rfl⟩

/-- The collecting loop of `predict_year` keeps one result per requested
month, in request order. -/
theorem predictMonths_ok_stamp {model : Model} {y : Int} :
    ∀ {ms : List Nat} {l : List MonthForecast},
      predictMonths model y ms = Except.ok l →
      l.map (fun f => f.month) = ms.map monthName
      ∧ l.map (fun f => f.year) = ms.map (fun _ => y) := by
  intro ms
  induction ms with
  | nil => intro l h; cases h; exact ⟨rfl, rfl⟩
  | cons m ms ih =>
    intro l h
    simp only [predictMonths] at h
    cases hp : predictMonth model y m with
    | error e => rw [hp] at h; cases h
    | ok p =>
      rw [hp] at h
      cases hr : predictMonths model y ms with
      | error e => rw [hr] at h; cases h
      | ok rest =>
        rw [hr] at h
        cases h
        obtain ⟨h1, h2⟩ := ih hr
        obtain ⟨h3, h4⟩ := predictMonth_ok_stamp hp
        simp [h1, h2, h3, h4]

/-- A successful `predict_year` is the `predictMonths` run over
`range(1, 13)`. -/
theorem predict_year_ok {model : Model} {y : Int} {l : List MonthForecast}
    (h : predict_year model y = Except.ok l) :
    predictMonths model y (List.range' 1 12) = Except.ok l := by
  simp only [predict_year] at h
  cases hp : predictMonths model y (List.range' 1 12) with
  | error e => rw [hp] at h; cases h
  | ok l' => rw [hp] at h; cases h; rfl

/-- The month columns of a successful `predict_year`. -/
theorem predict_year_stamp {model : Model} {y : Int} {l : List MonthForecast}
    (h : predict_year model y = Except.ok l) :
    l.map (fun f => f.month) = (List.range' 1 12).map monthName
    ∧ l.map (fun f => f.year) = (List.range' 1 12).map (fun _ => y) :=
  predictMonths_ok_stamp (predict_year_ok h)

/-- The calendar months January..December, in order. -/
def monthNames12 : List String :=
  ["January", "February", "March", "April", "May", "June", "July",
   "August", "September", "October", "November", "December"]

/-- C4: whenever `predict_year` succeeds it returns exactly 12 entries,
stamped January..December in calendar order (month 1..12) with the requested
year: never fewer, more, or reordered. -/
theorem predict_year_twelve_months (model : Model) (y : Int)
    (l : List MonthForecast) (h : predict_year model y = Except.ok l) :
    l.length = 12
    ∧ l.map (fun f => f.month) = monthNames12
    ∧ l.map (fun f => f.year) = List.replicate 12 y := by
  obtain ⟨h1, h2⟩ := predict_year_stamp h
  refine ⟨?_, ?_, ?_⟩
  · have := congrArg List.length h1
    simpa using this
  · rw [h1]; rfl
  · rw [h2]; rfl

/-- Witness for C4: the fully historical year 2020 succeeds with the twelve
calendar months in order. -/
theorem predict_year_twelve_months_witness :
    (histYear 2020).length = 12
    ∧ (histYear 2020).map (fun f => f.month) = monthNames12
    ∧ (histYear 2020).map (fun f => f.year) = List.replicate 12 2020 :=
  predict_year_twelve_months emptyModel 2020 (histYear 2020) (by decide)

/-- `priceLE` is transitive. -/
theorem priceLE_trans : ∀ a b c, priceLE a b → priceLE b c → priceLE a c := by
  intro a b c h1 h2
  simp only [priceLE, decide_eq_true_eq] at h1 h2 ⊢
  exact le_trans h1 h2

/-- `priceLE` is total. -/
theorem priceLE_total : ∀ a b, priceLE a b || priceLE b a := by
  intro a b
  simp only [priceLE]
  rcases le_total a.predicted_price b.predicted_price with h | h <;> simp [h]

/-- The sort is a permutation of its input. -/
theorem sortByPrice_perm (l : List MonthForecast) :
    List.Perm (sortByPrice l) l :=
  List.mergeSort_perm l priceLE

/-- The sort output is ascending in predicted price. -/
theorem sortByPrice_sorted (l : List MonthForecast) :
    (sortByPrice l).Pairwise
      (fun a b => a.predicted_price ≤ b.predicted_price) := by
  have h := List.sorted_mergeSort priceLE_trans priceLE_total l
  exact h.imp (fun hab => by simpa [priceLE] using hab)

@[simp] theorem sortByPrice_length (l : List MonthForecast) :
    (sortByPrice l).length = l.length :=
  (sortByPrice_perm l).length_eq

/-- C10: for a 12-entry year forecast whose month names are distinct, no
month recommended for buying is also recommended for selling. -/
theorem buy_sell_months_disjoint (y : Int) (preds : List MonthForecast)
    (h12 : preds.length = 12)
    (hnd : (preds.map (fun f => f.month)).Nodup)
    (r : BestMonths) (h : bestMonthsCore y preds = Except.ok r) :
    ∀ s ∈ r.best_buy_months.map (fun x => x.month),
      s ∉ r.best_sell_months.map (fun x => x.month) := by
  simp only [bestMonthsCore] at h
  split at h
  · cases h
  · cases h
    intro s hs hs'
    simp only [List.map_map] at hs hs'
    rw [sortByPrice_length, h12] at hs'
    have hnd' : ((sortByPrice preds).map (fun f => f.month)).Nodup :=
      (((sortByPrice_perm preds).map (fun f => f.month)).nodup_iff).mpr hnd
    have hsplit : (sortByPrice preds).map (fun f => f.month) =
        ((sortByPrice preds).take 3).map (fun f => f.month)
          ++ ((sortByPrice preds).drop 3).map (fun f => f.month) := by
      rw [← List.map_append, List.take_append_drop]
    rw [hsplit] at hnd'
    have hdisj := (List.nodup_append.mp hnd').2.2
    have hsub : List.Sublist ((sortByPrice preds).drop 9)
        ((sortByPrice preds).drop 3) := by
      have h96 : (sortByPrice preds).drop 9 =
          ((sortByPrice preds).drop 3).drop 6 := by
        rw [List.drop_drop]
      rw [h96]
      exact List.drop_sublist 6 _
    have hs1 : s ∈ ((sortByPrice preds).take 3).map (fun f => f.month) := by
      simpa [Function.comp] using hs
    have hs2 : s ∈ ((sortByPrice preds).drop 9).map (fun f => f.month) := by
      simpa [Function.comp] using hs'
    exact hdisj hs1 ((hsub.map (fun f => f.month)).subset hs2)

/-- The spec scenario input: prices 10, 20, ..., 120 for January..December
of 2025, as a year forecast. -/
def scenarioPreds : List MonthForecast :=
  (List.range' 1 12).map (fun m =>
    { month := monthName m, year := 2025,
      predicted_price := ((10 * m : Nat) : Rat) })

/-- The result `get_best_months` computes on `scenarioPreds`. -/
def scenarioResult : BestMonths :=
  { year := 2025
    best_buy_months :=
      [{ month := "January", price := 10,
         reason := "Post-holiday prices usually drop" },
       { month := "February", price := 20,
         reason := "Short month, stable low prices" },
       { month := "March", price := 30,
         reason := "Before peak season price rise" }]
    best_sell_months :=
      [{ month := "October", price := 100,
         reason := "Pre-holiday stocking begins" },
       { month := "November", price := 110,
         reason := "Holiday preparation peak" },
       { month := "December", price := 120,
         reason := "Highest holiday season prices" }]
    profit_analysis :=
      { average_buy_price := 20
        average_sell_price := 110
        potential_profit_margin := 450
        annual_low := 10
        annual_high := 120 } }

/-- Witness for C10 on the concrete scenario: January is recommended for
buying and is not among the selling months. -/
theorem buy_sell_months_disjoint_witness :
    "January" ∉ scenarioResult.best_sell_months.map (fun x => x.month) :=
  buy_sell_months_disjoint 2025 scenarioPreds (by decide) (by decide)
    scenarioResult (by decide) "January" (by decide)

/-- Two positions `i < j` of a list give a two-element sublist in that order. -/
theorem pair_get_sublist {α : Type _} :
    ∀ (l : List α) (i j : Nat) (hij : i < j) (hj : j < l.length),
      List.Sublist [l.get ⟨i, lt_trans hij hj⟩, l.get ⟨j, hj⟩] l := by
  intro l
  induction l with
  | nil => intro i j hij hj; simp at hj
  | cons x xs ih =>
    intro i j hij hj
    cases j with
    | zero => omega
    | succ j' =>
      cases i with
      | zero =>
        simp only [List.get_cons_zero, List.get_cons_succ]
        exact List.Sublist.cons₂ x (List.singleton_sublist.mpr (xs.get_mem _ _))
      | succ i' =>
        simp only [List.get_cons_succ]
        exact List.Sublist.cons x (ih i' j' (by omega) (by simpa using hj))

/-- A two-element sublist of a duplicate-free list whose members both lie in
the prefix `take k` is a sublist of that prefix. -/
theorem pair_sublist_take {α : Type _} :
    ∀ {s : List α} {a b : α}, s.Nodup → List.Sublist [a, b] s →
      ∀ {k : Nat}, a ∈ s.take k → b ∈ s.take k →
        List.Sublist [a, b] (s.take k) := by
  intro s
  induction s with
  | nil => intro a b _ h k ha _; simp at h
  | cons x xs ih =>
    intro a b hnd h k ha hb
    cases k with
    | zero => simp at ha
    | succ k =>
      rw [List.take_succ_cons] at ha hb ⊢
      rcases List.nodup_cons.mp hnd with ⟨hx, hnd'⟩
      cases h with
      | cons _ h' =>
        have hax : a ≠ x := fun he => hx (he ▸ h'.subset (by simp))
        have hbx : b ≠ x := fun he => hx (he ▸ h'.subset (by simp))
        have ha' : a ∈ xs.take k := by
          rcases List.mem_cons.mp ha with he | h2
          · exact absurd he hax
          · exact h2
        have hb' : b ∈ xs.take k := by
          rcases List.mem_cons.mp hb with he | h2
          · exact absurd he hbx
          · exact h2
        exact List.Sublist.cons x (ih hnd' h' ha' hb')
      | cons₂ _ h' =>
        have hb1 : b ∈ xs := List.singleton_sublist.mp h'
        have hb' : b ∈ xs.take k := by
          rcases List.mem_cons.mp hb with he | h2
          · exact absurd (he ▸ hb1) hx
          · exact h2
        exact List.Sublist.cons₂ x (List.singleton_sublist.mpr hb')

/-- A two-element sublist of a duplicate-free list whose first member lies in
the suffix `drop k` is a sublist of that suffix. -/
theorem pair_sublist_drop {α : Type _} :
    ∀ {s : List α} {a b : α}, s.Nodup → List.Sublist [a, b] s →
      ∀ {k : Nat}, a ∈ s.drop k → List.Sublist [a, b] (s.drop k) := by
  intro s
  induction s with
  | nil => intro a b _ h k ha; simp at h
  | cons x xs ih =>
    intro a b hnd h k ha
    cases k with
    | zero => exact h
    | succ k =>
      rw [List.drop_succ_cons] at ha ⊢
      rcases List.nodup_cons.mp hnd with ⟨hx, hnd'⟩
      cases h with
      | cons _ h' => exact ih hnd' h' ha
      | cons₂ _ h' => exact absurd (List.drop_subset k xs ha) hx

/-- C5: the ranking sort is stable.  For a duplicate-free forecast list, two
entries at calendar positions `i < j` with equal predicted price keep that
relative order in the sorted sequence, hence also inside `best_buy`
(the first three) and inside `best_sell` (the final three). -/
theorem ranking_sort_stable (preds : List MonthForecast) (i j : Nat)
    (hij : i < j) (hj : j < preds.length) (hnd : preds.Nodup)
    (hpr : (preds.get ⟨i, lt_trans hij hj⟩).predicted_price
         = (preds.get ⟨j, hj⟩).predicted_price) :
    List.Sublist [preds.get ⟨i, lt_trans hij hj⟩, preds.get ⟨j, hj⟩]
      (sortByPrice preds)
    ∧ (preds.get ⟨i, lt_trans hij hj⟩ ∈ (sortByPrice preds).take 3 →
       preds.get ⟨j, hj⟩ ∈ (sortByPrice preds).take 3 →
       List.Sublist [preds.get ⟨i, lt_trans hij hj⟩, preds.get ⟨j, hj⟩]
         ((sortByPrice preds).take 3))
    ∧ (preds.get ⟨i, lt_trans hij hj⟩ ∈
         (sortByPrice preds).drop ((sortByPrice preds).length - 3) →
       List.Sublist [preds.get ⟨i, lt_trans hij hj⟩, preds.get ⟨j, hj⟩]
         ((sortByPrice preds).drop ((sortByPrice preds).length - 3))) := by
  have hab : priceLE (preds.get ⟨i, lt_trans hij hj⟩) (preds.get ⟨j, hj⟩) = true := by
    simp only [priceLE, List.get_eq_getElem] at hpr ⊢
    simp [hpr]
  have hpair := pair_get_sublist preds i j hij hj
  have hsorted : List.Sublist
      [preds.get ⟨i, lt_trans hij hj⟩, preds.get ⟨j, hj⟩] (sortByPrice preds) :=
    List.pair_sublist_mergeSort priceLE_trans priceLE_total hab hpair
  have hnds : (sortByPrice preds).Nodup :=
    ((sortByPrice_perm preds).nodup_iff).mpr hnd
  exact ⟨hsorted, fun ha hb => pair_sublist_take hnds hsorted ha hb,
         fun ha => pair_sublist_drop hnds hsorted ha⟩

/-- A four-month forecast, already price-ascending, with a January/February
price tie, to exercise sort stability concretely. -/
def stablePreds : List MonthForecast :=
  [{ month := "January", year := 2025, predicted_price := 5 },
   { month := "February", year := 2025, predicted_price := 5 },
   { month := "March", year := 2025, predicted_price := 7 },
   { month := "April", year := 2025, predicted_price := 8 }]

/-- Witness for C5: the tied January and February stay in calendar order
inside the three cheapest entries. -/
theorem ranking_sort_stable_witness :
    List.Sublist [stablePreds.get ⟨0, by decide⟩, stablePreds.get ⟨1, by decide⟩]
      ((sortByPrice stablePreds).take 3) :=
  (ranking_sort_stable stablePreds 0 1 (by decide) (by decide) (by decide)
    (by decide)).2.1 (by decide) (by decide)

/-- C6: `best_buy` is the first three of the price-ascending sort and
`best_sell` the final three, kept ascending within the slice, so the first
buy entry is the annual low and the last sell entry the annual high; on the
spec scenario with prices 10, 20, ..., 120 for January..December the
selections and profit metrics are exactly as stated (averages 20 and 110,
margin 450). -/
theorem best_months_selection (y : Int) (preds : List MonthForecast)
    (h12 : preds.length = 12) (r : BestMonths)
    (h : bestMonthsCore y preds = Except.ok r) :
    (r.best_buy_months = ((sortByPrice preds).take 3).map (fun m =>
        { month := m.month, price := m.predicted_price,
          reason := get_buy_reason m.month })
    ∧ r.best_sell_months = ((sortByPrice preds).drop 9).map (fun m =>
        { month := m.month, price := m.predicted_price,
          reason := get_sell_reason m.month })
    ∧ ((sortByPrice preds).drop 9).Pairwise
        (fun a b => a.predicted_price ≤ b.predicted_price)
    ∧ (∀ x ∈ (sortByPrice preds).take 3, ∀ s ∈ (sortByPrice preds).drop 9,
        x.predicted_price ≤ s.predicted_price)
    ∧ (∀ p ∈ preds, r.profit_analysis.annual_low ≤ p.predicted_price
        ∧ p.predicted_price ≤ r.profit_analysis.annual_high))
    ∧ bestMonthsCore 2025 scenarioPreds = Except.ok scenarioResult := by
  refine ⟨?_, by decide⟩
  simp only [bestMonthsCore] at h
  split at h
  · cases h
  · cases h
    have hlen : (sortByPrice preds).length = 12 := by
      rw [sortByPrice_length, h12]
    have h93 : (sortByPrice preds).length - 3 = 9 := by omega
    rw [h93]
    have hdd : (sortByPrice preds).drop 9 =
        ((sortByPrice preds).drop 3).drop 6 := by
      rw [List.drop_drop]
    refine ⟨rfl, rfl, ?_, ?_, ?_⟩
    · exact List.Pairwise.sublist (List.drop_sublist 9 _) (sortByPrice_sorted preds)
    · intro x hx s' hs'
      have hsp : ((sortByPrice preds).take 3 ++ (sortByPrice preds).drop 3).Pairwise
          (fun a b => a.predicted_price ≤ b.predicted_price) := by
        rw [List.take_append_drop]
        exact sortByPrice_sorted preds
      have hs3 : s' ∈ (sortByPrice preds).drop 3 :=
        List.drop_subset _ _ (hdd ▸ hs')
      exact (List.pairwise_append.mp hsp).2.2 x hx s' hs3
    · intro p hp
      have hpm : p ∈ sortByPrice preds := ((sortByPrice_perm preds).mem_iff).mpr hp
      constructor
      · cases hsd : sortByPrice preds with
        | nil => rw [hsd] at hlen; cases hlen
        | cons c t =>
          show c.predicted_price ≤ p.predicted_price
          rw [hsd] at hpm
          rcases List.mem_cons.mp hpm with he | hpt
          · rw [he]
          · have hps := sortByPrice_sorted preds
            rw [hsd] at hps
            exact List.rel_of_pairwise_cons hps hpt
      · have hd3 : ((sortByPrice preds).drop 9).length = 3 := by
          rw [List.length_drop, hlen]
        obtain ⟨a, b, c, habc⟩ := List.length_eq_three.mp hd3
        rw [habc]
        show p.predicted_price ≤ c.predicted_price
        have hsplit9 : (sortByPrice preds).take 9 ++ [a, b, c] =
            sortByPrice preds := by
          rw [← habc, List.take_append_drop]
        have hps : ((sortByPrice preds).take 9 ++ [a, b, c]).Pairwise
            (fun u v => u.predicted_price ≤ v.predicted_price) := by
          rw [hsplit9]
          exact sortByPrice_sorted preds
        have hpm' : p ∈ (sortByPrice preds).take 9 ++ [a, b, c] := by
          rw [hsplit9]
          exact hpm
        rcases List.mem_append.mp hpm' with h9 | h3
        · exact (List.pairwise_append.mp hps).2.2 p h9 c (by simp)
        · have habc_pw : ([a, b, c] : List MonthForecast).Pairwise
              (fun u v => u.predicted_price ≤ v.predicted_price) :=
            (List.pairwise_append.mp hps).2.1
          rcases List.mem_cons.mp h3 with he | h3'
          · rw [he]
            exact List.rel_of_pairwise_cons habc_pw (by simp)
          · rcases List.mem_cons.mp h3' with he | h3''
            · rw [he]
              exact List.rel_of_pairwise_cons habc_pw.of_cons (by simp)
            · rw [List.mem_singleton.mp h3'']

/-- Witness for C6 on the concrete scenario input. -/
theorem best_months_selection_witness :
    scenarioResult.best_buy_months = ((sortByPrice scenarioPreds).take 3).map
      (fun m => { month := m.month, price := m.predicted_price,
                  reason := get_buy_reason m.month })
    ∧ bestMonthsCore 2025 scenarioPreds = Except.ok scenarioResult :=
  ⟨(best_months_selection 2025 scenarioPreds (by decide) scenarioResult
      (by decide)).1.1,
   (best_months_selection 2025 scenarioPreds (by decide) scenarioResult
      (by decide)).2⟩

/-- A successful multi-year loop keeps the iterated years as keys, in order,
and stores each year's `predict_year` result. -/
theorem predictYears_ok_shape {model : Model} :
    ∀ {ys : List Int} {m : List (Int × List MonthForecast)},
      predictYears model ys = Except.ok m →
      m.map Prod.fst = ys ∧ ∀ p ∈ m, predict_year model p.1 = Except.ok p.2 := by
  intro ys
  induction ys with
  | nil =>
    intro m h
    cases h
    exact ⟨rfl, by intro p hp; cases hp⟩
  | cons y ys ih =>
    intro m h
    simp only [predictYears] at h
    cases hy : predict_year model y with
    | error e => rw [hy] at h; cases h
    | ok predictions =>
      rw [hy] at h
      cases hr : predictYears model ys with
      | error e => rw [hr] at h; cases h
      | ok rest =>
        rw [hr] at h
        cases h
        obtain ⟨h1, h2⟩ := ih hr
        refine ⟨by simp [h1], ?_⟩
        intro p hp
        rcases List.mem_cons.mp hp with he | hp'
        · rw [he]; exact hy
        · exact h2 p hp'

/-- If every year before position `k` succeeds and the year at position `k`
fails, the multi-year loop aborts with that failure and returns nothing. -/
theorem predictYears_error {model : Model} :
    ∀ {ys : List Int} (k : Nat) (hk : k < ys.length) {e : String},
      (∀ j (hj : j < k), ∃ lj,
        predict_year model (ys.get ⟨j, lt_trans hj hk⟩) = Except.ok lj) →
      predict_year model (ys.get ⟨k, hk⟩) = Except.error e →
      predictYears model ys = Except.error e := by
  intro ys
  induction ys with
  | nil => intro k hk e _ _; simp at hk
  | cons y ys ih =>
    intro k hk e hsucc herr
    cases k with
    | zero =>
      have herr0 : predict_year model y = Except.error e := herr
      simp only [predictYears, herr0]
    | succ k =>
      obtain ⟨l0, hl0⟩ := hsucc 0 (Nat.succ_pos k)
      have hl0' : predict_year model y = Except.ok l0 := hl0
      have hky : k < ys.length := by
        have hlc := hk
        simp only [List.length_cons] at hlc
        omega
      have herr2 : predict_year model (ys.get ⟨k, hky⟩) = Except.error e := herr
      have hrec : predictYears model ys = Except.error e := by
        refine ih k hky ?_ herr2
        intro j hj
        obtain ⟨lj, hlj⟩ := hsucc (j + 1) (by omega)
        exact ⟨lj, hlj⟩
      simp only [predictYears, hl0', hrec]

/-- C7: `get_multi_year_predictions` maps every year of
`range(current_year, current_year + years)`, in order, to its Year Forecast;
it fails fast, aborting with a wrapped error on the first failing year with
no partial mapping returned. -/
theorem multi_year_contract (model : Model) (cy : Int) (n : Nat) :
    (∀ m, get_multi_year_predictions model cy n = Except.ok m →
        m.map Prod.fst = (List.range n).map (fun (k : Nat) => cy + (k : Int))
        ∧ ∀ p ∈ m, predict_year model p.1 = Except.ok p.2)
    ∧ (∀ k, ∀ _hk : k < n, ∀ e : String,
        (∀ j, j < k → ∃ lj, predict_year model (cy + (j : Int)) = Except.ok lj) →
        predict_year model (cy + (k : Int)) = Except.error e →
        get_multi_year_predictions model cy n =
          Except.error ("Multi-year prediction failed: " ++ e)) := by
  constructor
  · intro m h
    simp only [get_multi_year_predictions] at h
    cases hr : predictYears model ((List.range n).map (fun (k : Nat) => cy + (k : Int))) with
    | error e => rw [hr] at h; cases h
    | ok m' =>
      rw [hr] at h
      cases h
      exact predictYears_ok_shape hr
  · intro k hk e hsucc herr
    have hget : ∀ (j : Nat) (hj : j < ((List.range n).map
        (fun (k : Nat) => cy + (k : Int))).length),
        ((List.range n).map (fun (k : Nat) => cy + (k : Int))).get ⟨j, hj⟩
          = cy + (j : Int) := by
      intro j hj
      simp
    have hlen : k < ((List.range n).map (fun (k : Nat) => cy + (k : Int))).length := by
      simpa using hk
    have herr' := predictYears_error k hlen
      (fun j hj => by rw [hget j (lt_trans hj hlen)]; exact hsucc j hj)
      (by rw [hget k hlen]; exact herr)
    simp only [get_multi_year_predictions, herr']

/-- Witness for C7: two fully historical years starting at 2020 succeed, with
keys 2020 and 2021 in order. -/
theorem multi_year_contract_witness :
    ([((2020 : Int), histYear 2020), ((2021 : Int), histYear 2021)].map Prod.fst
      = (List.range 2).map (fun (k : Nat) => (2020 : Int) + (k : Int))) :=
  ((multi_year_contract emptyModel 2020 2).1
    [((2020 : Int), histYear 2020), ((2021 : Int), histYear 2021)] (by decide)).1

end ChickMash

namespace Views

open ChickMash

/-- C8 counterexample: `complete_analysis` performs no past-year validation.
With current year 2025 and requested year 2024 it does not return the 400
rejection; it calls the advisor, whose failure surfaces as a 500 response. -/
theorem complete_analysis_skips_validation :
    complete_analysis emptyModel 2025 2024 1 =
      ViewResponse.err "Best months analysis failed: float division by zero" 500
    ∧ complete_analysis emptyModel 2025 2024 1 ≠
      ViewResponse.err "Cannot analyze past years" 400 := by
  constructor
  · decide
  · decide

/-- C8 amended: `best_buy_months` and `best_sell_months` reject a requested
year below the current calendar year with a 400 "Cannot analyze past years"
response before any advisor call (the response is the same for every model);
`complete_analysis` performs no such validation. -/
theorem past_year_rejected (model : Model) (cy y : Int) (h : y < cy) :
    best_buy_months model cy y =
      ViewResponse.err "Cannot analyze past years" 400
    ∧ best_sell_months model cy y =
      ViewResponse.err "Cannot analyze past years" 400 := by
  constructor
  · simp only [best_buy_months]
    rw [if_pos h]
  · simp only [best_sell_months]
    rw [if_pos h]

/-- Witness for the amended C8 at a concrete past year. -/
theorem past_year_rejected_witness :
    best_buy_months emptyModel 2025 2024 =
      ViewResponse.err "Cannot analyze past years" 400
    ∧ best_sell_months emptyModel 2025 2024 =
      ViewResponse.err "Cannot analyze past years" 400 :=
  past_year_rejected emptyModel 2025 2024 (by decide)

end Views

namespace ChickMash

/-- Refinement target from the spec: the standard 3-letter English month
abbreviation. -/
def specMonthAbbrev : Nat → String
  | 1 => "Jan"
  | 2 => "Feb"
  | 3 => "Mar"
  | 4 => "Apr"
  | 5 => "May"
  | 6 => "Jun"
  | 7 => "Jul"
  | 8 => "Aug"
  | 9 => "Sep"
  | 10 => "Oct"
  | 11 => "Nov"
  | 12 => "Dec"
  | _ => ""

/-- Refinement target from the spec: the 2-digit year, i.e. the two decimal
digits of `y mod 100`. -/
def specTwoDigitYear (y : Int) : String :=
  ⟨[Nat.digitChar ((y % 100).toNat / 10), Nat.digitChar ((y % 100).toNat % 10)]⟩

/-- Refinement target from the spec:
label = "{3-letter month abbrev} {2-digit year}". -/
def specLabel (y : Int) (m : Nat) : String :=
  specMonthAbbrev m ++ " " ++ specTwoDigitYear y

/-- The digit accumulator only ever receives appended output. -/
theorem toDigitsCore_shift (fuel : Nat) :
    ∀ (n : Nat) (ds : List Char),
      Nat.toDigitsCore 10 fuel n ds = Nat.toDigitsCore 10 fuel n [] ++ ds := by
  induction fuel with
  | zero => intro n ds; simp [Nat.toDigitsCore]
  | succ fuel ih =>
    intro n ds
    simp only [Nat.toDigitsCore]
    by_cases h : n / 10 = 0
    · simp [h]
    · rw [if_neg h, if_neg h, ih (n / 10) [Nat.digitChar (n % 10)],
        ih (n / 10) (Nat.digitChar (n % 10) :: ds)]
      simp

/-- The digit expansion does not depend on the fuel, once sufficient. -/
theorem toDigitsCore_fuel :
    ∀ (n f₁ f₂ : Nat), n < f₁ → n < f₂ →
      Nat.toDigitsCore 10 f₁ n [] = Nat.toDigitsCore 10 f₂ n [] := by
  intro n
  induction n using Nat.strong_induction_on with
  | _ n ih =>
    intro f₁ f₂ h₁ h₂
    cases f₁ with
    | zero => omega
    | succ g₁ =>
      cases f₂ with
      | zero => omega
      | succ g₂ =>
        simp only [Nat.toDigitsCore]
        by_cases h : n / 10 = 0
        · simp [h]
        · rw [if_neg h, if_neg h, toDigitsCore_shift g₁, toDigitsCore_shift g₂]
          have hn10 : 10 ≤ n := by
            rcases Nat.lt_or_ge n 10 with hlt | hge
            · exact absurd ((Nat.div_eq_zero_iff (by omega)).mpr hlt) h
            · exact hge
          have hlt : n / 10 < n := Nat.div_lt_self (by omega) (by omega)
          rw [ih (n / 10) hlt g₁ g₂ (by omega) (by omega)]

/-- Peeling the last decimal digit of a number of at least two digits. -/
theorem toDigits_step (n : Nat) (h : 10 ≤ n) :
    Nat.toDigits 10 n
      = Nat.toDigits 10 (n / 10) ++ [Nat.digitChar (n % 10)] := by
  have hne : ¬ n / 10 = 0 := by
    rw [Nat.div_eq_zero_iff (by omega)]
    omega
  show Nat.toDigitsCore 10 (n + 1) n [] = _
  simp only [Nat.toDigitsCore]
  rw [if_neg hne, toDigitsCore_shift n]
  rw [toDigitsCore_fuel (n / 10) n (n / 10 + 1)
    (lt_of_lt_of_le (Nat.div_lt_self (by omega) (by omega)) (le_refl n))
    (Nat.lt_succ_self _)]
  rfl

/-- A single decimal digit. -/
theorem toDigits_single (n : Nat) (h : n < 10) :
    Nat.toDigits 10 n = [Nat.digitChar n] := by
  show Nat.toDigitsCore 10 (n + 1) n [] = _
  simp only [Nat.toDigitsCore]
  rw [if_pos ((Nat.div_eq_zero_iff (by omega)).mpr h), Nat.mod_eq_of_lt h]

/-- The last two characters of the decimal expansion of `n ≥ 10` are the two
digits of `n mod 100`. -/
theorem toDigits_suffix (n : Nat) (h : 10 ≤ n) :
    (Nat.toDigits 10 n).drop ((Nat.toDigits 10 n).length - 2)
      = [Nat.digitChar (n / 10 % 10), Nat.digitChar (n % 10)] := by
  rcases Nat.lt_or_ge n 100 with h100 | h100
  · have h110 : n / 10 < 10 := by omega
    rw [toDigits_step n h, toDigits_single (n / 10) h110]
    simp [Nat.mod_eq_of_lt h110]
  · have h10 : 10 ≤ n / 10 := by omega
    rw [toDigits_step n h, toDigits_step (n / 10) h10, List.append_assoc]
    have hlen : (Nat.toDigits 10 (n / 10 / 10) ++
        ([Nat.digitChar (n / 10 % 10)] ++ [Nat.digitChar (n % 10)])).length - 2
        = (Nat.toDigits 10 (n / 10 / 10)).length := by
      simp
    rw [hlen, List.drop_left]
    rfl

/-- `str(year)[-2:]` is the 2-digit year for every year of at least two
digits. -/
theorem strTakeRight_toString_int (y : Int) (h : 10 ≤ y) :
    strTakeRight (toString y) 2 = specTwoDigitYear y := by
  obtain ⟨n, rfl⟩ : ∃ n : Nat, y = (n : Int) :=
    ⟨y.toNat, (Int.toNat_of_nonneg (by omega)).symm⟩
  have hn : 10 ≤ n := by exact_mod_cast h
  calc strTakeRight (toString ((n : Nat) : Int)) 2
      = (⟨(Nat.toDigits 10 n).drop ((Nat.toDigits 10 n).length - 2)⟩ : String) :=
        rfl
    _ = specTwoDigitYear ((n : Nat) : Int) := by
        rw [toDigits_suffix n hn]
        show (⟨[Nat.digitChar (n / 10 % 10), Nat.digitChar (n % 10)]⟩ : String)
            = ⟨[Nat.digitChar ((((n : Nat) : Int) % 100).toNat / 10),
                Nat.digitChar ((((n : Nat) : Int) % 100).toNat % 10)]⟩
        have hmod : (((n : Nat) : Int) % 100).toNat = n % 100 := by omega
        rw [hmod, show n % 100 / 10 = n / 10 % 10 by omega,
          show n % 100 % 10 = n % 10 by omega]

/-- `month_name[:3]` is the standard 3-letter abbreviation for each of the
twelve month names. -/
theorem strTake_monthName :
    ∀ m, 1 ≤ m → m ≤ 12 → strTake (monthName m) 3 = specMonthAbbrev m := by
  intro m h1 h2
  interval_cases m <;> rfl

/-- Pointwise-equal functions give the same `flatMap`. -/
theorem flatMap_congr_left {α β : Type _} {l : List α} {f g : α → List β}
    (h : ∀ a ∈ l, f a = g a) : l.flatMap f = l.flatMap g := by
  induction l with
  | nil => rfl
  | cons x xs ih =>
    simp only [List.flatMap_cons]
    rw [h x (by simp), ih (fun a ha => h a (by simp [ha]))]

end ChickMash

namespace ChickMash

/-- C9: a successful multi-year forecast of `n` years yields a chart series of
exactly `12 * n` points, iterated years-ascending with calendar months in
order within each year, each label being the month's 3-letter abbreviation
followed by the 2-digit year. -/
theorem chart_series_shape (model : Model) (cy : Int) (n : Nat) (hcy : 10 ≤ cy)
    (m : List (Int × List MonthForecast))
    (h : get_multi_year_predictions model cy n = Except.ok m) :
    (chartSeries m).length = 12 * n
    ∧ (chartSeries m).map Prod.fst
      = (List.range n).flatMap (fun (k : Nat) =>
          (List.range' 1 12).map (specLabel (cy + (k : Int)))) := by
  have h' : predictYears model
      ((List.range n).map (fun (k : Nat) => cy + (k : Int))) = Except.ok m := by
    simp only [get_multi_year_predictions] at h
    cases hr : predictYears model
        ((List.range n).map (fun (k : Nat) => cy + (k : Int))) with
    | error e => rw [hr] at h; cases h
    | ok m' => rw [hr] at h; cases h; rfl
  obtain ⟨hfst, hvals⟩ := predictYears_ok_shape h'
  have hyears : ∀ p ∈ m, 10 ≤ p.1
      ∧ p.2.map (fun f => f.month) = (List.range' 1 12).map monthName := by
    intro p hp
    refine ⟨?_, (predict_year_stamp (hvals p hp)).1⟩
    have hmem : p.1 ∈ m.map Prod.fst := List.mem_map_of_mem _ hp
    rw [hfst] at hmem
    obtain ⟨k, _hk, hkeq⟩ := List.mem_map.mp hmem
    omega
  constructor
  · simp only [chartSeries, List.length_flatMap]
    have hmap : m.map (List.length ∘ (fun p => p.2.map (fun month_data =>
        (strTake month_data.month 3 ++ " " ++ strTakeRight (toString p.1) 2,
          month_data.predicted_price)))) = m.map (fun _ => 12) := by
      refine List.map_congr_left ?_
      intro p hp
      have h12 : p.2.length = 12 := by
        have hc := congrArg List.length (hyears p hp).2
        simpa using hc
      simp [h12]
    rw [hmap, List.map_const', List.sum_replicate]
    have hlenm : m.length = n := by
      have hc := congrArg List.length hfst
      simpa using hc
    rw [hlenm, smul_eq_mul, Nat.mul_comm]
  · simp only [chartSeries, List.map_flatMap]
    have step1 : m.flatMap (fun p => (p.2.map (fun month_data =>
        (strTake month_data.month 3 ++ " " ++ strTakeRight (toString p.1) 2,
          month_data.predicted_price))).map Prod.fst)
        = m.flatMap (fun p => (List.range' 1 12).map (specLabel p.1)) := by
      refine flatMap_congr_left ?_
      intro p hp
      obtain ⟨hy10, hmonths⟩ := hyears p hp
      rw [List.map_map]
      have hcomp : p.2.map (Prod.fst ∘ (fun month_data =>
          (strTake month_data.month 3 ++ " " ++ strTakeRight (toString p.1) 2,
            month_data.predicted_price)))
          = (p.2.map (fun f => f.month)).map
              (fun s => strTake s 3 ++ " " ++ strTakeRight (toString p.1) 2) := by
        rw [List.map_map]
        rfl
      rw [hcomp, hmonths, List.map_map]
      refine List.map_congr_left ?_
      intro mo hmo
      have hmo12 : 1 ≤ mo ∧ mo < 1 + 12 := List.mem_range'_1.mp hmo
      show strTake (monthName mo) 3 ++ " " ++ strTakeRight (toString p.1) 2
          = specLabel p.1 mo
      rw [strTake_monthName mo hmo12.1 (by omega),
        strTakeRight_toString_int p.1 hy10]
      rfl
    rw [step1,
      show (m.flatMap fun p => List.map (specLabel p.1) (List.range' 1 12))
          = (m.map Prod.fst).flatMap
              (fun y => List.map (specLabel y) (List.range' 1 12)) from
        (List.flatMap_map Prod.fst
          (fun y => List.map (specLabel y) (List.range' 1 12)) m).symm,
      hfst, List.flatMap_map]

/-- Witness for C9: one fully historical year starting at 2020 gives 12
points labelled "Jan 20" .. "Dec 20". -/
theorem chart_series_shape_witness :
    (chartSeries [((2020 : Int), histYear 2020)]).length = 12 * 1
    ∧ (chartSeries [((2020 : Int), histYear 2020)]).map Prod.fst
      = (List.range 1).flatMap (fun (k : Nat) =>
          (List.range' 1 12).map (specLabel ((2020 : Int) + (k : Int)))) :=
  chart_series_shape emptyModel 2020 1 (by decide)
    [((2020 : Int), histYear 2020)] (by decide)

end ChickMash
